import Mathlib

/-!
Shallow embedding of the SMS_GPT API gateway (app/main.py and app/email_router.py).

The relational store is modelled as lists of typed rows; a request-scoped
SQLAlchemy session is a pair of stores (last committed state, in-transaction
draft).  `db.execute` of an INSERT edits the draft, `db.commit` publishes the
draft, `db.rollback` discards it.  Parameter bags are association lists of
JSON scalar values (the request bodies in this repository only carry scalars);
Python truthiness (`if not x`) and `is not None` tests are modelled on that
value type.  Statement-level SQLAlchemyError failures are injected through a
boolean oracle indexed by the position of the `db.execute` call inside a
handler.
-/

/-- A JSON scalar value as it appears in a request's parameter bag or in a
row column fed from request data.  `vNull` doubles as Python's `None`. -/
inductive Value where
  | vNull
  | vInt (n : Int)
  | vStr (s : String)
  | vBool (b : Bool)
deriving Repr, DecidableEq

/-- Python truthiness: `None`, `0`, `""` and `False` are falsy. -/
def truthy : Value → Bool
  | .vNull => false
  | .vInt n => n != 0
  | .vStr s => s != ""
  | .vBool b => b

/-- Python `int(x)`: succeeds on ints, bools and integer-looking strings,
raises (here: `none`) on `None` and non-numeric strings. -/
def pyInt : Value → Option Int
  | .vInt n => some n
  | .vBool b => some (if b then 1 else 0)
  | .vStr s => s.trim.toInt?
  | .vNull => none

/-- Python `str(x)` / f-string interpolation of a parameter value. -/
def pyStr : Value → String
  | .vNull => "None"
  | .vInt n => toString n
  | .vStr s => s
  | .vBool b => if b then "True" else "False"

/-- The merged parameter bag: a Python dict modelled as an association list
in insertion order (dict keys are unique so first-match lookup agrees). -/
abbrev Params := List (String × Value)

/-- `params.get(k)`: `None` when the key is absent. -/
def getParam (p : Params) (k : String) : Value :=
  match List.lookup k p with
  | some v => v
  | none => .vNull

/-- `params.get(k, d)`: default `d` when the key is absent. -/
def getParamD (p : Params) (k : String) (d : Value) : Value :=
  match List.lookup k p with
  | some v => v
  | none => d

/-- JSON-like response payloads (the handler results and envelopes). -/
inductive J where
  | null
  | i (n : Int)
  | s (t : String)
  | b (x : Bool)
  | arr (xs : List J)
  | obj (fs : List (String × J))

/-- Embed a parameter/row value into a response payload. -/
def valJ : Value → J
  | .vNull => .null
  | .vInt n => .i n
  | .vStr s => .s s
  | .vBool b => .b b

/-- HTTP-level failure: `http` is a raised `HTTPException`; `pyError` is an
uncaught Python exception (TypeError/ValueError), surfaced by the framework
as a generic server error, never as a 4xx validation error. -/
inductive HError where
  | http (status : Nat) (detail : String)
  | pyError (msg : String)
deriving Repr, DecidableEq

-- ---------- substring matching for SQL LIKE with percent wildcards ----------

/-- Char-list prefix test. -/
def listPrefixOf : List Char → List Char → Bool
  | [], _ => true
  | _ :: _, [] => false
  | a :: as, b :: bs => a == b && listPrefixOf as bs

/-- Char-list infix test. -/
def listInfixOf (n : List Char) : List Char → Bool
  | [] => listPrefixOf n []
  | c :: cs => listPrefixOf n (c :: cs) || listInfixOf n (c :: cs).tail

/-- Model of the SQL pattern match against a percent-wrapped literal. -/
def likeContains (hay pat : String) : Bool :=
  listInfixOf pat.data hay.data

-- ---------- ordering helpers for SQL ORDER BY ----------

/-- Lexicographic char-list comparison. -/
def charListLe : List Char → List Char → Bool
  | [], _ => true
  | _ :: _, [] => false
  | a :: as, b :: bs =>
      if Nat.blt a.toNat b.toNat then true
      else if Nat.blt b.toNat a.toNat then false
      else charListLe as bs

/-- Lexicographic string comparison used for ORDER BY on text columns. -/
def strLe (a b : String) : Bool := charListLe a.data b.data

/-- Insert into a list sorted by `le`. -/
def insertSorted (le : α → α → Bool) (x : α) : List α → List α
  | [] => [x]
  | y :: ys => if le x y then x :: y :: ys else y :: insertSorted le x ys

/-- Insertion sort modelling SQL ORDER BY. -/
def sortRows (le : α → α → Bool) : List α → List α
  | [] => []
  | x :: xs => insertSorted le x (sortRows le xs)

-- ---------- row types of the tables and views the handlers touch ----------

/-- Row of tblCustomer. -/
structure CustomerRow where
  customerId : Int
  name : String
  email : String
deriving Repr, DecidableEq

/-- Row of the joined quotes view vwGlobalQuotes. -/
structure QuoteRow where
  quoteId : Int
  quoteNo : String
  branch : String
  createdDate : String
  usdValue : Int
  customerName : String
  status : String
deriving Repr, DecidableEq

/-- Row of the joined asset view vwCustomerAssetAffiliation. -/
structure AssetRow where
  assetId : Int
  assetIdentifier : String
  assetType : String
  assetTypeId : Int
  parentAssetId : Int
  customerId : Int
  customerName : String
  vesselName : String
  address : String
  port : String
  terminal : String
  portOfTerminal : String
  parentPort : String
  country : String
  custType : String
  interCo : Bool
  blocked : Bool
  custDeleted : Bool
  assetDeleted : Bool
deriving Repr, DecidableEq

/-- Row of the contacts view vwCustContact. -/
structure ContactRow where
  contactId : Int
  jobTitle : String
  fullName : String
  email : String
  mobileNo : String
  phoneNo : String
  salutation : String
  body : String
  bodyEnd : String
  createdOn : String
  createdBy : String
  customerId : Int
deriving Repr, DecidableEq

/-- Row of tblCustMeeting.  Columns fed from request parameters keep the
`Value` they were inserted with; identity and GETDATE columns are concrete. -/
structure MeetingRow where
  meetingId : Int
  customerId : Value
  meetingDate : Value
  createdBy : Value
  createdOn : Int
  status : Value
  reportSentOn : Value
  assetId : Value
deriving Repr, DecidableEq

/-- Row of tblCustMeetingKeyTopic. -/
structure KeyTopicRow where
  keyTopicId : Int
  meetingId : Value
  topic : Value
  pos : Value
  createdOn : Int
  createdBy : Value
deriving Repr, DecidableEq

/-- Row of tblCustMeetingSpecOp. -/
structure SpecOpRow where
  specOpId : Int
  meetingId : Value
  specOp : Value
  pos : Value
  createdBy : Value
  createdOn : Int
deriving Repr, DecidableEq

/-- Row of tblCustMeetingAction. -/
structure ActionRow where
  actionId : Int
  meetingId : Value
  action : Value
  pos : Value
  createdBy : Value
  createdOn : Int
  status : Value
deriving Repr, DecidableEq

/-- Row of tblCustMeetingActionResp. -/
structure RespRow where
  respId : Int
  actionId : Int
  branch : Value
  employeeId : Value
  createdBy : Value
  createdOn : Int
  employeeIdB4 : Value
deriving Repr, DecidableEq

/-- Row of tblCustMeetingAlatasAttendance. -/
structure AlatasAttRow where
  attId : Int
  meetingId : Value
  employeeId : Value
  createdOn : Int
  createdBy : Value
  employeeIdB4 : Value
deriving Repr, DecidableEq

/-- Row of tblCustMeetingAttendance (customer-contact attendees). -/
structure CustAttRow where
  attId : Int
  meetingId : Value
  contactId : Value
  createdOn : Int
  createdBy : Value
deriving Repr, DecidableEq

/-- Row of tblEmailQuoteTracking: every column is fed from the request body. -/
structure TrackingRow where
  internetMessageId : Value
  forwardedEmailId : Value
  subject : Value
  fromAddress : Value
  customerId : Value
  assetId : Value
  quoteId : Value
  quoteNo : Value
  notes : Value
deriving Repr, DecidableEq

/-- The relational store: one list per table/view plus identity counters and
a frozen clock standing for GETDATE() within the request. -/
structure Store where
  customers : List CustomerRow
  globalQuotes : List QuoteRow
  assetAff : List AssetRow
  custContacts : List ContactRow
  meetings : List MeetingRow
  keyTopics : List KeyTopicRow
  specOps : List SpecOpRow
  actions : List ActionRow
  actionResps : List RespRow
  alatasAtt : List AlatasAttRow
  custAtt : List CustAttRow
  emailTracking : List TrackingRow
  nextMeetingId : Int
  nextKeyTopicId : Int
  nextSpecOpId : Int
  nextActionId : Int
  nextRespId : Int
  nextAlatasAttId : Int
  nextCustAttId : Int
  nextQuoteId : Int
  clock : Int
deriving Repr, DecidableEq

/-- A store with empty tables. -/
def emptyStore : Store where
  customers := []
  globalQuotes := []
  assetAff := []
  custContacts := []
  meetings := []
  keyTopics := []
  specOps := []
  actions := []
  actionResps := []
  alatasAtt := []
  custAtt := []
  emailTracking := []
  nextMeetingId := 1
  nextKeyTopicId := 1
  nextSpecOpId := 1
  nextActionId := 1
  nextRespId := 1
  nextAlatasAttId := 1
  nextCustAttId := 1
  nextQuoteId := 1
  clock := 0

/-- A request-scoped SQLAlchemy session: the last committed store and the
current in-transaction draft.  The state visible after the request is
`committed` (the `get_db` dependency closes the session, discarding any
uncommitted draft). -/
structure Session where
  committed : Store
  draft : Store
deriving Repr, DecidableEq

/-- The fresh session handed to a request by `get_db`. -/
def Session.fresh (st : Store) : Session := ⟨st, st⟩

/-- A write statement executed inside the open transaction edits the draft. -/
def Session.execW (s : Session) (f : Store → Store) : Session :=
  { s with draft := f s.draft }

/-- `db.commit()`. -/
def Session.commitTx (s : Session) : Session :=
  { s with committed := s.draft }

/-- `db.rollback()`. -/
def Session.rollbackTx (s : Session) : Session :=
  { s with draft := s.committed }

-- ====================================================================
-- app/email_router.py
-- ====================================================================

/-- Modelled from the spec: the markup stripping inside `html_to_text` is
delegated to the external BeautifulSoup library (`get_text` with a newline
separator), which is not part of this repository.  Per the spec it strips
tags and emits the text fragments separated by newline characters.  Tags are
the maximal angle-bracketed chunks; the text pieces between them that are
nonempty become the fragments. -/
def getTextFragments : List Char → Bool → List Char → List String
  | [], _, cur => if cur.isEmpty then [] else [String.mk cur.reverse]
  | c :: cs, false, cur =>
      if c == '<' then
        if cur.isEmpty then getTextFragments cs true []
        else String.mk cur.reverse :: getTextFragments cs true []
      else getTextFragments cs false (c :: cur)
  | c :: cs, true, cur =>
      if c == '>' then getTextFragments cs false []
      else getTextFragments cs true cur

/-- Modelled from the spec: BeautifulSoup's `get_text(separator newline)`. -/
def getTextNewline (html : String) : String :=
  String.intercalate "\n" (getTextFragments html.data false [])

/-- `html_to_text` from app/email_router.py: empty input short-circuits to
the empty string, otherwise the markup is stripped with newline separators. -/
def html_to_text (html : String) : String :=
  if html == "" then "" else getTextNewline html

/-- The SELECT predicate of `was_processed`:
WHERE InternetMessageID equals the query argument. -/
def trackingMatches (imid : String) (r : TrackingRow) : Bool :=
  r.internetMessageId == Value.vStr imid

/-- GET /email/was_processed from app/email_router.py.  `first()` on the
unordered SELECT is the head of the filtered rows in table order. -/
def was_processed (db : Session) (internetMessageId : String) :
    Session × Except HError J :=
  match (db.draft.emailTracking.filter (trackingMatches internetMessageId)).head? with
  | some row =>
      (db, .ok (J.obj [("processed", J.b true),
        ("quoteId", valJ row.quoteId),
        ("quoteNo", valJ row.quoteNo),
        ("customerId", valJ row.customerId),
        ("assetId", valJ row.assetId)]))
  | none => (db, .ok (J.obj [("processed", J.b false)]))

/-- The row POST /email/track inserts (every column from the request body). -/
def trackRowOf (data : Params) : TrackingRow :=
  { internetMessageId := getParam data "internetMessageId"
    forwardedEmailId := getParam data "forwardedEmailId"
    subject := getParam data "subject"
    fromAddress := getParam data "from"
    customerId := getParam data "customerId"
    assetId := getParam data "assetId"
    quoteId := getParam data "quoteId"
    quoteNo := getParam data "quoteNo"
    notes := getParam data "notes" }

/-- POST /email/track from app/email_router.py: minimal validation of
`internetMessageId`, then an unconditional INSERT followed by commit. -/
def track_email (db : Session) (data : Params) : Session × Except HError J :=
  if truthy (getParam data "internetMessageId") == false then
    (db, .error (HError.http 400 "internetMessageId is required"))
  else
    let row : TrackingRow := trackRowOf data
    let db := db.execW (fun st => { st with emailTracking := st.emailTracking ++ [row] })
    (db.commitTx, .ok (J.obj [("ok", J.b true)]))

/-- Number of tracking rows recorded for a given global message id. -/
def countTracking (st : Store) (imid : String) : Nat :=
  (st.emailTracking.filter (trackingMatches imid)).length

-- ====================================================================
-- app/main.py: read handlers
-- ====================================================================

/-- Column aliasing of the customers_search SELECT. -/
def customerJ (c : CustomerRow) : J :=
  J.obj [("id", J.i c.customerId), ("name", J.s c.name), ("email", J.s c.email)]

/-- `search_customers`: optional name substring filter, TOP limit, ORDER BY
id DESC.  SQL TOP (n) is modelled as taking the first `n.toNat` rows. -/
def search_customers (db : Session) (p : Params) : Session × Except HError J :=
  let name := getParam p "name"
  match pyInt (getParamD p "limit" (Value.vInt 20)) with
  | none => (db, .error (HError.pyError "int() conversion failed"))
  | some limit =>
    let rows := db.draft.customers.filter
      (fun c => if truthy name then likeContains c.name (pyStr name) else true)
    let rows := (sortRows (fun a b => decide (b.customerId ≤ a.customerId)) rows).take limit.toNat
    (db, .ok (J.arr (rows.map customerJ)))

/-- Column aliasing of the quotes_by_customer SELECT. -/
def quoteJ (q : QuoteRow) : J :=
  J.obj [("id", J.i q.quoteId), ("quoteNumber", J.s q.quoteNo),
    ("branch", J.s q.branch), ("createdOn", J.s q.createdDate),
    ("totalAmount", J.i q.usdValue), ("customerName", J.s q.customerName),
    ("quoteStatus", J.s q.status)]

/-- `get_quotes_by_customer`: required customerName, substring match on the
quotes view, ORDER BY created date DESC, TOP limit. -/
def get_quotes_by_customer (db : Session) (p : Params) : Session × Except HError J :=
  let customer_name := getParam p "customerName"
  if truthy customer_name == false then
    (db, .error (HError.http 400 "customerName es obligatorio"))
  else
    match pyInt (getParamD p "limit" (Value.vInt 20)) with
    | none => (db, .error (HError.pyError "int() conversion failed"))
    | some limit =>
      let rows := db.draft.globalQuotes.filter
        (fun q => likeContains q.customerName (pyStr customer_name))
      let rows := (sortRows (fun a b => strLe b.createdDate a.createdDate) rows).take limit.toNat
      (db, .ok (J.arr (rows.map quoteJ)))

/-- The WHERE predicate of quotes_count_by_branch_status:
Branch = :branch AND fldQStatus = :status (parameterized comparison). -/
def quoteCountMatches (branch status : Value) (q : QuoteRow) : Bool :=
  Value.vStr q.branch == branch && Value.vStr q.status == status

/-- `get_quotes_count_by_branch_status`: required branch and status, then a
single aggregate row (COUNT and COALESCE(SUM, 0)) echoing the arguments.
An aggregate SELECT always yields exactly one row, so `first()` is `some`;
the source's falsy-row fallback is kept verbatim on the `none` branch. -/
def get_quotes_count_by_branch_status (db : Session) (p : Params) :
    Session × Except HError J :=
  let branch := getParam p "branch"
  let status := getParam p "status"
  if !truthy branch || !truthy status then
    (db, .error (HError.http 400 "branch y status son obligatorios"))
  else
    let matching := db.draft.globalQuotes.filter (quoteCountMatches branch status)
    let total := matching.foldl (fun acc q => acc + q.usdValue) 0
    let firstRow : Option J := some (J.obj [("branch", valJ branch),
      ("status", valJ status), ("quotesCount", J.i matching.length),
      ("totalAmount", J.i total)])
    match firstRow with
    | some r => (db, .ok (J.arr [r]))
    | none => (db, .ok (J.arr [J.obj [("branch", valJ branch),
        ("status", valJ status), ("quotesCount", J.i 0), ("totalAmount", J.i 0)]]))

/-- Column aliasing of both asset SELECTs. -/
def assetJ (a : AssetRow) : J :=
  J.obj [("assetId", J.i a.assetId), ("assetIdentifier", J.s a.assetIdentifier),
    ("assetType", J.s a.assetType), ("assetTypeId", J.i a.assetTypeId),
    ("parentAssetId", J.i a.parentAssetId), ("customerId", J.i a.customerId),
    ("customerName", J.s a.customerName), ("vesselName", J.s a.vesselName),
    ("address", J.s a.address), ("port", J.s a.port), ("terminal", J.s a.terminal),
    ("portOfTerminal", J.s a.portOfTerminal), ("parentPort", J.s a.parentPort),
    ("country", J.s a.country), ("customerType", J.s a.custType),
    ("interCompanyFlag", J.b a.interCo), ("blocked", J.b a.blocked),
    ("customerDeleted", J.b a.custDeleted), ("assetDeleted", J.b a.assetDeleted)]

/-- WHERE clause of the exact vessel-name query: fldVName = :exact_name,
plus AND fldCustomerID = :cid only when customer_id is truthy. -/
def exactAssetPred (customer_id vessel_name : Value) (a : AssetRow) : Bool :=
  Value.vStr a.vesselName == vessel_name &&
    (if truthy customer_id then Value.vInt a.customerId == customer_id else true)

/-- WHERE clause of the fallback LIKE query with its optional filters, in the
order the source appends them. -/
def likeAssetPred (p : Params) (a : AssetRow) : Bool :=
  (if truthy (getParam p "customerId") then
      Value.vInt a.customerId == getParam p "customerId" else true) &&
  (if truthy (getParam p "vesselName") then
      likeContains a.vesselName (pyStr (getParam p "vesselName")) else true) &&
  (if getParam p "assetTypeId" != Value.vNull then
      Value.vInt a.assetTypeId == getParam p "assetTypeId" else true) &&
  (if truthy (getParam p "assetType") then
      likeContains a.assetType (pyStr (getParam p "assetType")) else true) &&
  (if truthy (getParam p "country") then
      Value.vStr a.country == getParam p "country" else true) &&
  (if getParam p "interCo" != Value.vNull then
      a.interCo == truthy (getParam p "interCo") else true) &&
  (if getParam p "blocked" != Value.vNull then
      a.blocked == truthy (getParam p "blocked") else true) &&
  (if getParam p "assetDeleted" != Value.vNull then
      a.assetDeleted == truthy (getParam p "assetDeleted") else true)

/-- The rows of the exact vessel-name query: TOP (limit), no ORDER BY. -/
def exactAssetRows (st : Store) (p : Params) (limit : Int) : List AssetRow :=
  (st.assetAff.filter
    (exactAssetPred (getParam p "customerId") (getParam p "vesselName"))).take limit.toNat

/-- The rows of the fallback LIKE query: ORDER BY fldAssetID DESC, TOP (limit). -/
def likeAssetRows (st : Store) (p : Params) (limit : Int) : List AssetRow :=
  ((sortRows (fun a b => decide (b.assetId ≤ a.assetId))
    (st.assetAff.filter (likeAssetPred p)))).take limit.toNat

/-- `get_assets_by_customer`: the limit conversion happens before the
required-parameter check, exactly as in the source; then the exact
vessel-name query (no ORDER BY), returned when nonempty, else the LIKE
query with optional filters, ORDER BY fldAssetID DESC. -/
def get_assets_by_customer (db : Session) (p : Params) : Session × Except HError J :=
  match pyInt (getParamD p "limit" (Value.vInt 50)) with
  | none => (db, .error (HError.pyError "int() conversion failed"))
  | some limit =>
    let customer_id := getParam p "customerId"
    let vessel_name := getParam p "vesselName"
    if !truthy customer_id && !truthy vessel_name then
      (db, .error (HError.http 400 "Debes enviar customerId o vesselName"))
    else
      if truthy vessel_name then
        let exactRows := exactAssetRows db.draft p limit
        if exactRows.isEmpty then (db, .ok (J.arr ((likeAssetRows db.draft p limit).map assetJ)))
        else (db, .ok (J.arr (exactRows.map assetJ)))
      else (db, .ok (J.arr ((likeAssetRows db.draft p limit).map assetJ)))

/-- `search_assets_global`: the limit conversion happens before the required
vesselName check, exactly as in the source; then a LIKE query ORDER BY
fldAssetID DESC. -/
def search_assets_global (db : Session) (p : Params) : Session × Except HError J :=
  match pyInt (getParamD p "limit" (Value.vInt 50)) with
  | none => (db, .error (HError.pyError "int() conversion failed"))
  | some limit =>
    let vessel_name := getParam p "vesselName"
    if truthy vessel_name == false then
      (db, .error (HError.http 400 "You must send vesselName to search global assets"))
    else
      let rows := db.draft.assetAff.filter
        (fun a => likeContains a.vesselName (pyStr vessel_name))
      let rows := (sortRows (fun a b => decide (b.assetId ≤ a.assetId)) rows).take limit.toNat
      (db, .ok (J.arr (rows.map assetJ)))

/-- Column aliasing of the customer_contacts SELECT. -/
def contactJ (c : ContactRow) : J :=
  J.obj [("contactId", J.i c.contactId), ("jobTitle", J.s c.jobTitle),
    ("fullName", J.s c.fullName), ("email", J.s c.email),
    ("mobileNo", J.s c.mobileNo), ("phoneNo", J.s c.phoneNo),
    ("salutation", J.s c.salutation), ("body", J.s c.body),
    ("bodyEnd", J.s c.bodyEnd), ("createdOn", J.s c.createdOn),
    ("createdBy", J.s c.createdBy), ("customerId", J.i c.customerId)]

/-- `get_customer_contacts`: required customerId, equality filter, ORDER BY
full name, TOP limit. -/
def get_customer_contacts (db : Session) (p : Params) : Session × Except HError J :=
  let customer_id := getParam p "customerId"
  if truthy customer_id == false then
    (db, .error (HError.http 400 "customerId es obligatorio para obtener los contactos"))
  else
    match pyInt (getParamD p "limit" (Value.vInt 50)) with
    | none => (db, .error (HError.pyError "int() conversion failed"))
    | some limit =>
      let rows := db.draft.custContacts.filter
        (fun c => Value.vInt c.customerId == customer_id)
      let rows := (sortRows (fun a b => strLe a.fullName b.fullName) rows).take limit.toNat
      (db, .ok (J.arr (rows.map contactJ)))

/-- Column aliasing of the meetings_by_customer SELECT. -/
def meetingJ (m : MeetingRow) : J :=
  J.obj [("meetingId", J.i m.meetingId), ("customerId", valJ m.customerId),
    ("meetingDate", valJ m.meetingDate), ("createdBy", valJ m.createdBy),
    ("createdOn", J.i m.createdOn), ("status", valJ m.status),
    ("reportSentOn", valJ m.reportSentOn), ("assetId", valJ m.assetId)]

/-- `get_meetings_by_customer`: required customerId, optional status filter,
ORDER BY meeting date DESC then id DESC, TOP limit. -/
def get_meetings_by_customer (db : Session) (p : Params) : Session × Except HError J :=
  let customer_id := getParam p "customerId"
  if truthy customer_id == false then
    (db, .error (HError.http 400 "customerId es obligatorio para obtener los meetings"))
  else
    match pyInt (getParamD p "limit" (Value.vInt 50)) with
    | none => (db, .error (HError.pyError "int() conversion failed"))
    | some limit =>
      let status := getParam p "status"
      let rows := db.draft.meetings.filter
        (fun m => m.customerId == customer_id &&
          (if truthy status then m.status == status else true))
      let rows := (sortRows (fun a b =>
          let da := pyStr a.meetingDate
          let dbs := pyStr b.meetingDate
          if da == dbs then decide (b.meetingId ≤ a.meetingId)
          else strLe dbs da) rows).take limit.toNat
      (db, .ok (J.arr (rows.map meetingJ)))

/-- SELECT * column set of tblCustMeetingKeyTopic. -/
def keyTopicJ (k : KeyTopicRow) : J :=
  J.obj [("fldCustMeetingKeyTopicID", J.i k.keyTopicId),
    ("fldCustMeetingID", valJ k.meetingId),
    ("fldCustMeetingKeyTopic", valJ k.topic),
    ("fldCustMeetingKeyTopicPos", valJ k.pos),
    ("fldCreatedOn", J.i k.createdOn), ("fldCreatedBy", valJ k.createdBy)]

/-- `get_meeting_key_topics`: required meetingId, ORDER BY the identity id. -/
def get_meeting_key_topics (db : Session) (p : Params) : Session × Except HError J :=
  let meeting_id := getParam p "meetingId"
  if truthy meeting_id == false then
    (db, .error (HError.http 400 "meetingId es obligatorio para obtener los key topics"))
  else
    let rows := db.draft.keyTopics.filter (fun k => k.meetingId == meeting_id)
    let rows := sortRows (fun a b => decide (a.keyTopicId ≤ b.keyTopicId)) rows
    (db, .ok (J.arr (rows.map keyTopicJ)))

/-- SELECT * column set of tblCustMeetingSpecOp. -/
def specOpJ (k : SpecOpRow) : J :=
  J.obj [("fldCustMeetingSpecOpID", J.i k.specOpId),
    ("fldCustMeetingID", valJ k.meetingId),
    ("fldCustMeetingSpecOp", valJ k.specOp),
    ("fldCustMeetingSpecOpPos", valJ k.pos),
    ("fldCreatedBy", valJ k.createdBy), ("fldCreatedOn", J.i k.createdOn)]

/-- `get_meeting_spec_ops`: required meetingId, ORDER BY the identity id. -/
def get_meeting_spec_ops (db : Session) (p : Params) : Session × Except HError J :=
  let meeting_id := getParam p "meetingId"
  if truthy meeting_id == false then
    (db, .error (HError.http 400 "meetingId es obligatorio para obtener los spec ops"))
  else
    let rows := db.draft.specOps.filter (fun k => k.meetingId == meeting_id)
    let rows := sortRows (fun a b => decide (a.specOpId ≤ b.specOpId)) rows
    (db, .ok (J.arr (rows.map specOpJ)))

/-- Modelled from the spec: the view vwCustMeetingActionRespConcat is defined
inside the database, not in this repository; per the spec the handler lists
the child action rows of a meeting, so the view is modelled as the meeting's
rows of tblCustMeetingAction with their raw columns. -/
def actionViewJ (a : ActionRow) : J :=
  J.obj [("fldCustMeetingActionID", J.i a.actionId),
    ("fldCustMeetingID", valJ a.meetingId),
    ("fldCustMeetingAction", valJ a.action),
    ("fldCustMeetingActionPos", valJ a.pos),
    ("fldCreatedBy", valJ a.createdBy), ("fldCreatedOn", J.i a.createdOn),
    ("fldStatus", valJ a.status)]

/-- `get_meeting_actions`: required meetingId, no ORDER BY in the source. -/
def get_meeting_actions (db : Session) (p : Params) : Session × Except HError J :=
  let meeting_id := getParam p "meetingId"
  if truthy meeting_id == false then
    (db, .error (HError.http 400 "meetingId es obligatorio para obtener las action items"))
  else
    let rows := db.draft.actions.filter (fun a => a.meetingId == meeting_id)
    (db, .ok (J.arr (rows.map actionViewJ)))

-- ====================================================================
-- app/main.py: write handlers
-- ====================================================================

/-- `create_meeting`: required customerId and meetingDate, defaults
createdBy "GPT_API" and status "Pending" via Python `or`, one INSERT with
OUTPUT of the new identity, commit; SQLAlchemyError rolls back and turns
into a 500.  `oracle 0` injects a failure of the single execute. -/
def create_meeting (db : Session) (p : Params) (oracle : Nat → Bool) :
    Session × Except HError J :=
  let customer_id := getParam p "customerId"
  let meeting_date := getParam p "meetingDate"
  let created_by := if truthy (getParam p "createdBy") then getParam p "createdBy"
    else Value.vStr "GPT_API"
  let status := if truthy (getParam p "status") then getParam p "status"
    else Value.vStr "Pending"
  let asset_id := getParam p "assetId"
  if !truthy customer_id || !truthy meeting_date then
    (db, .error (HError.http 400
      "customerId y meetingDate son obligatorios para crear el meeting"))
  else if oracle 0 then
    (db.rollbackTx, .error (HError.http 500 "SQLAlchemyError"))
  else
    let mid := db.draft.nextMeetingId
    let db := db.execW (fun st =>
      let row : MeetingRow :=
        { meetingId := mid
          customerId := customer_id
          meetingDate := meeting_date
          createdBy := created_by
          createdOn := st.clock
          status := status
          reportSentOn := Value.vNull
          assetId := asset_id }
      { st with meetings := st.meetings ++ [row], nextMeetingId := mid + 1 })
    let db := db.commitTx
    -- OUTPUT INSERTED always yields the identity row on a successful insert,
    -- so the source's falsy-row guard after the commit is unreachable
    (db, .ok (J.obj [("meetingId", J.i mid), ("customerId", valJ customer_id),
      ("meetingDate", valJ meeting_date), ("status", valJ status),
      ("assetId", valJ asset_id)]))

/-- `create_meeting_key_topic`: required meetingId and keyTopic, optional
position, default createdBy, one INSERT and commit. -/
def create_meeting_key_topic (db : Session) (p : Params) (oracle : Nat → Bool) :
    Session × Except HError J :=
  let meeting_id := getParam p "meetingId"
  let key_topic := getParam p "keyTopic"
  let position := getParam p "position"
  let created_by := if truthy (getParam p "createdBy") then getParam p "createdBy"
    else Value.vStr "GPT_API"
  if !truthy meeting_id || !truthy key_topic then
    (db, .error (HError.http 400
      "meetingId y keyTopic son obligatorios para crear un key topic"))
  else if oracle 0 then
    (db.rollbackTx, .error (HError.http 500 "SQLAlchemyError"))
  else
    let kid := db.draft.nextKeyTopicId
    let db := db.execW (fun st =>
      let row : KeyTopicRow :=
        { keyTopicId := kid
          meetingId := meeting_id
          topic := key_topic
          pos := position
          createdOn := st.clock
          createdBy := created_by }
      { st with keyTopics := st.keyTopics ++ [row], nextKeyTopicId := kid + 1 })
    let db := db.commitTx
    (db, .ok (J.obj [("keyTopicId", J.i kid), ("meetingId", valJ meeting_id),
      ("keyTopic", valJ key_topic), ("position", valJ position),
      ("createdBy", valJ created_by)]))

/-- `create_meeting_spec_op`: required meetingId and specOp, optional
position, default createdBy, one INSERT and commit. -/
def create_meeting_spec_op (db : Session) (p : Params) (oracle : Nat → Bool) :
    Session × Except HError J :=
  let meeting_id := getParam p "meetingId"
  let spec_op := getParam p "specOp"
  let position := getParam p "position"
  let created_by := if truthy (getParam p "createdBy") then getParam p "createdBy"
    else Value.vStr "GPT_API"
  if !truthy meeting_id || !truthy spec_op then
    (db, .error (HError.http 400
      "meetingId y specOp son obligatorios para crear una spec op"))
  else if oracle 0 then
    (db.rollbackTx, .error (HError.http 500 "SQLAlchemyError"))
  else
    let sid := db.draft.nextSpecOpId
    let db := db.execW (fun st =>
      let row : SpecOpRow :=
        { specOpId := sid
          meetingId := meeting_id
          specOp := spec_op
          pos := position
          createdBy := created_by
          createdOn := st.clock }
      { st with specOps := st.specOps ++ [row], nextSpecOpId := sid + 1 })
    let db := db.commitTx
    (db, .ok (J.obj [("specOpId", J.i sid), ("meetingId", valJ meeting_id),
      ("specOp", valJ spec_op), ("position", valJ position),
      ("createdBy", valJ created_by)]))

/-- `create_meeting_action`: required meetingId and description; INSERT the
action row; then, only when branch and employeeId are both non-None, INSERT
the responsible-party row; a single commit at the end; a SQLAlchemyError at
either execute (oracle index 0 or 1) rolls the whole transaction back and
surfaces a 500. -/
def create_meeting_action (db : Session) (p : Params) (oracle : Nat → Bool) :
    Session × Except HError J :=
  let meeting_id := getParam p "meetingId"
  let description := getParam p "description"
  let position := getParam p "position"
  let status := if truthy (getParam p "status") then getParam p "status"
    else Value.vStr "Open"
  let branch := getParam p "branch"
  let employee_id := getParam p "employeeId"
  let created_by := if truthy (getParam p "createdBy") then getParam p "createdBy"
    else Value.vStr "GPT_API"
  if !truthy meeting_id || !truthy description then
    (db, .error (HError.http 400
      "meetingId y description son obligatorios para crear una action"))
  else if oracle 0 then
    (db.rollbackTx, .error (HError.http 500 "SQLAlchemyError"))
  else
    let new_action_id := db.draft.nextActionId
    let db1 := db.execW (fun st =>
      let row : ActionRow :=
        { actionId := new_action_id
          meetingId := meeting_id
          action := description
          pos := position
          createdBy := created_by
          createdOn := st.clock
          status := status }
      { st with actions := st.actions ++ [row], nextActionId := new_action_id + 1 })
    -- the OUTPUT row of the successful insert is always present, so the
    -- source's falsy-action_row guard is unreachable
    if branch != Value.vNull && employee_id != Value.vNull then
      if oracle 1 then
        (db1.rollbackTx, .error (HError.http 500 "SQLAlchemyError"))
      else
        let new_resp_id := db1.draft.nextRespId
        let db2 := db1.execW (fun st =>
          let row : RespRow :=
            { respId := new_resp_id
              actionId := new_action_id
              branch := branch
              employeeId := employee_id
              createdBy := created_by
              createdOn := st.clock
              employeeIdB4 := employee_id }
          { st with actionResps := st.actionResps ++ [row],
                    nextRespId := new_resp_id + 1 })
        let db2 := db2.commitTx
        (db2, .ok (J.obj [("actionId", J.i new_action_id),
          ("meetingId", valJ meeting_id), ("description", valJ description),
          ("position", valJ position), ("status", valJ status),
          ("branch", valJ branch), ("employeeId", valJ employee_id),
          ("responsibleRecordId", J.i new_resp_id), ("createdBy", valJ created_by)]))
    else
      let db1 := db1.commitTx
      (db1, .ok (J.obj [("actionId", J.i new_action_id),
        ("meetingId", valJ meeting_id), ("description", valJ description),
        ("position", valJ position), ("status", valJ status),
        ("branch", valJ branch), ("employeeId", valJ employee_id),
        ("responsibleRecordId", J.null), ("createdBy", valJ created_by)]))

/-- `create_meeting_alatas_attendance`: required meetingId and employeeId,
one INSERT and commit. -/
def create_meeting_alatas_attendance (db : Session) (p : Params)
    (oracle : Nat → Bool) : Session × Except HError J :=
  let meeting_id := getParam p "meetingId"
  let employee_id := getParam p "employeeId"
  let created_by := if truthy (getParam p "createdBy") then getParam p "createdBy"
    else Value.vStr "GPT_API"
  if !truthy meeting_id || !truthy employee_id then
    (db, .error (HError.http 400
      "meetingId y employeeId son obligatorios para crear un asistente Alatas"))
  else if oracle 0 then
    (db.rollbackTx, .error (HError.http 500 "SQLAlchemyError"))
  else
    let aid := db.draft.nextAlatasAttId
    let db := db.execW (fun st =>
      let row : AlatasAttRow :=
        { attId := aid
          meetingId := meeting_id
          employeeId := employee_id
          createdOn := st.clock
          createdBy := created_by
          employeeIdB4 := employee_id }
      { st with alatasAtt := st.alatasAtt ++ [row], nextAlatasAttId := aid + 1 })
    let db := db.commitTx
    (db, .ok (J.obj [("alatasAttendanceId", J.i aid), ("meetingId", valJ meeting_id),
      ("employeeId", valJ employee_id), ("createdBy", valJ created_by)]))

/-- `create_meeting_cust_attendance`: required meetingId and contactId,
one INSERT and commit. -/
def create_meeting_cust_attendance (db : Session) (p : Params)
    (oracle : Nat → Bool) : Session × Except HError J :=
  let meeting_id := getParam p "meetingId"
  let contact_id := getParam p "contactId"
  let created_by := if truthy (getParam p "createdBy") then getParam p "createdBy"
    else Value.vStr "GPT_API"
  if !truthy meeting_id || !truthy contact_id then
    (db, .error (HError.http 400
      "meetingId y contactId son obligatorios para crear un asistente cliente"))
  else if oracle 0 then
    (db.rollbackTx, .error (HError.http 500 "SQLAlchemyError"))
  else
    let aid := db.draft.nextCustAttId
    let db := db.execW (fun st =>
      let row : CustAttRow :=
        { attId := aid
          meetingId := meeting_id
          contactId := contact_id
          createdOn := st.clock
          createdBy := created_by }
      { st with custAtt := st.custAtt ++ [row], nextCustAttId := aid + 1 })
    let db := db.commitTx
    (db, .ok (J.obj [("custAttendanceId", J.i aid), ("meetingId", valJ meeting_id),
      ("contactId", valJ contact_id), ("createdBy", valJ created_by)]))

/-- Modelled from the spec: the stored procedure dbo.uspCreateQuoteAPI lives
in the database, not in this repository; per the spec it is an opaque call
that creates a quote and hands back a generated quote id and quote number
through its output parameters.  Columns the spec does not determine are left
blank in the created view row. -/
def uspCreateQuoteAPI (st : Store) (branch : Value) : Store × Int × String :=
  let qid := st.nextQuoteId
  let qno := "Q" ++ toString qid
  let row : QuoteRow :=
    { quoteId := qid
      quoteNo := qno
      branch := pyStr branch
      createdDate := ""
      usdValue := 0
      customerName := ""
      status := "" }
  ({ st with nextQuoteId := qid + 1,
             globalQuotes := st.globalQuotes ++ [row] }, qid, qno)

/-- `create_quote_from_asset`: required customerId and assetId, then the
stored-procedure block with output parameters, commit; SQLAlchemyError rolls
back and becomes a 500. -/
def create_quote_from_asset (db : Session) (p : Params) (oracle : Nat → Bool) :
    Session × Except HError J :=
  let customer_id := getParam p "customerId"
  let asset_id := getParam p "assetId"
  if !truthy customer_id || !truthy asset_id then
    (db, .error (HError.http 400
      "customerId y assetId son obligatorios para crear la cotización"))
  else
    let branch := getParam p "branch"
    if oracle 0 then
      (db.rollbackTx, .error (HError.http 500 "SQLAlchemyError"))
    else
      let res := uspCreateQuoteAPI db.draft branch
      let db := { db with draft := res.1 }
      let db := db.commitTx
      (db, .ok (J.obj [("quoteId", J.i res.2.1), ("quoteNo", J.s res.2.2),
        ("customerId", valJ customer_id), ("assetId", valJ asset_id),
        ("branch", valJ branch)]))

-- ====================================================================
-- app/main.py: QueryRequest model, parameter normalization, dispatch
-- ====================================================================

/-- The pydantic QueryRequest body: `queryType`, the optional `params` bag,
and the legacy flat convenience fields, each `None` by default. -/
structure QueryRequest where
  queryType : String
  params : Option Params := none
  name : Value := .vNull
  limit : Value := .vNull
  customerName : Value := .vNull
  branch : Value := .vNull
  status : Value := .vNull
  customerId : Value := .vNull
  assetTypeId : Value := .vNull
  assetType : Value := .vNull
  vesselName : Value := .vNull
  country : Value := .vNull
  interCo : Value := .vNull
  blocked : Value := .vNull
  assetDeleted : Value := .vNull
  assetId : Value := .vNull
  createdBy : Value := .vNull
  isAlatas : Value := .vNull
  relationshipId : Value := .vNull
  notes : Value := .vNull
  meetingId : Value := .vNull
  meetingDate : Value := .vNull
  description : Value := .vNull
  position : Value := .vNull
  employeeId : Value := .vNull
  keyTopic : Value := .vNull
  specOp : Value := .vNull
  contactId : Value := .vNull

/-- The field list the normalization loop in `run_query` walks, in source
order.  Note that the declared field isAlatas is not in this list. -/
def flatFields : List String :=
  ["name", "limit", "customerName", "branch", "status",
   "customerId", "assetTypeId", "assetType",
   "vesselName", "country", "interCo", "blocked", "assetDeleted",
   "assetId", "createdBy", "relationshipId", "notes",
   "meetingId", "meetingDate", "description", "position",
   "employeeId", "keyTopic", "specOp", "contactId"]

/-- `getattr(body, field)` for the flat fields. -/
def fieldValue (b : QueryRequest) : String → Value
  | "name" => b.name
  | "limit" => b.limit
  | "customerName" => b.customerName
  | "branch" => b.branch
  | "status" => b.status
  | "customerId" => b.customerId
  | "assetTypeId" => b.assetTypeId
  | "assetType" => b.assetType
  | "vesselName" => b.vesselName
  | "country" => b.country
  | "interCo" => b.interCo
  | "blocked" => b.blocked
  | "assetDeleted" => b.assetDeleted
  | "assetId" => b.assetId
  | "createdBy" => b.createdBy
  | "isAlatas" => b.isAlatas
  | "relationshipId" => b.relationshipId
  | "notes" => b.notes
  | "meetingId" => b.meetingId
  | "meetingDate" => b.meetingDate
  | "description" => b.description
  | "position" => b.position
  | "employeeId" => b.employeeId
  | "keyTopic" => b.keyTopic
  | "specOp" => b.specOp
  | "contactId" => b.contactId
  | _ => .vNull

/-- The normalization loop body of `run_query`: walk the flat fields and
copy a non-None value into the bag when the bag lacks that key (dict
assignment appends the new key in insertion order). -/
def copyFlat (b : QueryRequest) : List String → Params → Params
  | [], ps => ps
  | f :: fs, ps =>
      let v := fieldValue b f
      if v != Value.vNull && (List.lookup f ps).isNone then
        copyFlat b fs (ps ++ [(f, v)])
      else
        copyFlat b fs ps

/-- The merged parameter bag of a request: `body.params or` the empty dict,
then the flat-field copy loop. -/
def normalizeParams (b : QueryRequest) : Params :=
  copyFlat b flatFields (b.params.getD [])

/-- The operation names of the dispatch chain, in source order. -/
def supportedOps : List String :=
  ["customers_search", "quotes_by_customer", "quotes_count_by_branch_status",
   "assets_by_customer", "assets_search_global", "create_quote_from_asset",
   "customer_contacts", "meetings_by_customer", "meeting_key_topics",
   "meeting_spec_ops", "meeting_actions", "create_meeting",
   "create_meeting_key_topic", "create_meeting_spec_op", "create_meeting_action",
   "create_meeting_alatas_attendance", "create_meeting_cust_attendance"]

/-- A handler's data gets wrapped in the ok-envelope; raised errors pass
through unchanged. -/
def wrapOk : Session × Except HError J → Session × Except HError J
  | (db, .ok d) => (db, .ok (J.obj [("ok", J.b true), ("data", d)]))
  | (db, .error e) => (db, .error e)

/-- The if/elif dispatch chain of `run_query` over the merged bag, ending in
the unsupported-operation 400. -/
def dispatchQuery (db : Session) (qt : String) (params : Params)
    (oracle : Nat → Bool) : Session × Except HError J :=
  if qt == "customers_search" then wrapOk (search_customers db params)
  else if qt == "quotes_by_customer" then wrapOk (get_quotes_by_customer db params)
  else if qt == "quotes_count_by_branch_status" then
    wrapOk (get_quotes_count_by_branch_status db params)
  else if qt == "assets_by_customer" then wrapOk (get_assets_by_customer db params)
  else if qt == "assets_search_global" then wrapOk (search_assets_global db params)
  else if qt == "create_quote_from_asset" then
    wrapOk (create_quote_from_asset db params oracle)
  else if qt == "customer_contacts" then wrapOk (get_customer_contacts db params)
  else if qt == "meetings_by_customer" then wrapOk (get_meetings_by_customer db params)
  else if qt == "meeting_key_topics" then wrapOk (get_meeting_key_topics db params)
  else if qt == "meeting_spec_ops" then wrapOk (get_meeting_spec_ops db params)
  else if qt == "meeting_actions" then wrapOk (get_meeting_actions db params)
  else if qt == "create_meeting" then wrapOk (create_meeting db params oracle)
  else if qt == "create_meeting_key_topic" then
    wrapOk (create_meeting_key_topic db params oracle)
  else if qt == "create_meeting_spec_op" then
    wrapOk (create_meeting_spec_op db params oracle)
  else if qt == "create_meeting_action" then
    wrapOk (create_meeting_action db params oracle)
  else if qt == "create_meeting_alatas_attendance" then
    wrapOk (create_meeting_alatas_attendance db params oracle)
  else if qt == "create_meeting_cust_attendance" then
    wrapOk (create_meeting_cust_attendance db params oracle)
  else (db, .error (HError.http 400 "queryType no soportado"))

/-- POST /api/query: normalize the parameter bag, then dispatch. -/
def run_query (db : Session) (body : QueryRequest) (oracle : Nat → Bool) :
    Session × Except HError J :=
  dispatchQuery db body.queryType (normalizeParams body) oracle

-- ====================================================================
-- Required-parameter table and concrete fixtures for the theorems
-- ====================================================================

/-- The required parameters of each handler per its own validation guard
(spec §4.1 table).  assets_by_customer is disjunctive — it requires
customerId or vesselName — and is treated separately. -/
def requiredSpec : String → List String
  | "quotes_by_customer" => ["customerName"]
  | "quotes_count_by_branch_status" => ["branch", "status"]
  | "assets_search_global" => ["vesselName"]
  | "customer_contacts" => ["customerId"]
  | "meetings_by_customer" => ["customerId"]
  | "meeting_key_topics" => ["meetingId"]
  | "meeting_spec_ops" => ["meetingId"]
  | "meeting_actions" => ["meetingId"]
  | "create_meeting" => ["customerId", "meetingDate"]
  | "create_meeting_key_topic" => ["meetingId", "keyTopic"]
  | "create_meeting_spec_op" => ["meetingId", "specOp"]
  | "create_meeting_action" => ["meetingId", "description"]
  | "create_meeting_alatas_attendance" => ["meetingId", "employeeId"]
  | "create_meeting_cust_attendance" => ["meetingId", "contactId"]
  | "create_quote_from_asset" => ["customerId", "assetId"]
  | _ => []

/-- A fresh session over the empty store. -/
def sess0 : Session := Session.fresh emptyStore

/-- The oracle under which no statement raises. -/
def noFail : Nat → Bool := fun _ => false

/-- The oracle under which the second statement of a handler raises. -/
def failSecond : Nat → Bool := fun k => k == 1

/-- The action row `create_meeting_action` inserts into tblCustMeetingAction. -/
def actionRowOf (st : Store) (p : Params) : ActionRow :=
  { actionId := st.nextActionId
    meetingId := getParam p "meetingId"
    action := getParam p "description"
    pos := getParam p "position"
    createdBy := if truthy (getParam p "createdBy") then getParam p "createdBy"
      else Value.vStr "GPT_API"
    createdOn := st.clock
    status := if truthy (getParam p "status") then getParam p "status"
      else Value.vStr "Open" }

/-- The responsible-party row `create_meeting_action` inserts into
tblCustMeetingActionResp. -/
def respRowOf (st : Store) (p : Params) : RespRow :=
  { respId := st.nextRespId
    actionId := st.nextActionId
    branch := getParam p "branch"
    employeeId := getParam p "employeeId"
    createdBy := if truthy (getParam p "createdBy") then getParam p "createdBy"
      else Value.vStr "GPT_API"
    createdOn := st.clock
    employeeIdB4 := getParam p "employeeId" }

/-- The store after a successful `create_meeting_action` with a responsible
party: exactly the two new rows are appended and the two identity counters
advance; no other table changes. -/
def actionSuccessStore (st : Store) (p : Params) : Store :=
  { st with
    actions := st.actions ++ [actionRowOf st p]
    nextActionId := st.nextActionId + 1
    actionResps := st.actionResps ++ [respRowOf st p]
    nextRespId := st.nextRespId + 1 }

/-- The response payload of a successful `create_meeting_action` with a
responsible party. -/
def actionSuccessJ (st : Store) (p : Params) : J :=
  J.obj [("actionId", J.i st.nextActionId),
    ("meetingId", valJ (getParam p "meetingId")),
    ("description", valJ (getParam p "description")),
    ("position", valJ (getParam p "position")),
    ("status", valJ (if truthy (getParam p "status") then getParam p "status"
      else Value.vStr "Open")),
    ("branch", valJ (getParam p "branch")),
    ("employeeId", valJ (getParam p "employeeId")),
    ("responsibleRecordId", J.i st.nextRespId),
    ("createdBy", valJ (if truthy (getParam p "createdBy") then getParam p "createdBy"
      else Value.vStr "GPT_API"))]

/-- Concrete create_meeting_action parameters with responsible-party data. -/
def pAction : Params :=
  [("meetingId", Value.vInt 4), ("description", Value.vStr "follow up"),
   ("branch", Value.vStr "AUK"), ("employeeId", Value.vInt 7)]

/-- The C8 request body: quotes_count_by_branch_status for AUK and Open. -/
def body8 : QueryRequest :=
  { queryType := "quotes_count_by_branch_status"
    params := some [("branch", Value.vStr "AUK"), ("status", Value.vStr "Open")] }

/-- A body whose queryType matches no handler. -/
def bodyUnsupported : QueryRequest := { queryType := "drop_all_tables" }

/-- A bag whose only entry is a limit that `int()` cannot convert. -/
def cexBag : Params := [("limit", Value.vNull)]

/-- Body with both a bag entry `branch` and flat fields `branch`, `name`:
the bag must win for `branch`, `name` must be copied in. -/
def bodyFlat : QueryRequest :=
  { queryType := "customers_search"
    params := some [("branch", Value.vStr "BAG")]
    branch := Value.vStr "FLAT"
    name := Value.vStr "Acme" }

/-- An asset whose vessel name is matched exactly by the C4 fixture query. -/
def assetExact : AssetRow :=
  { assetId := 1, assetIdentifier := "A1", assetType := "Crane", assetTypeId := 2
    parentAssetId := 0, customerId := 3, customerName := "ACME"
    vesselName := "EVEREST", address := "", port := "", terminal := ""
    portOfTerminal := "", parentPort := "", country := "NO", custType := ""
    interCo := false, blocked := false, custDeleted := false, assetDeleted := false }

/-- An asset that only matches the C4 fixture query as a substring. -/
def assetLike : AssetRow := { assetExact with assetId := 2, vesselName := "EVEREST II" }

/-- Store holding an exact match and a substring-only match. -/
def storeAssets : Store := { emptyStore with assetAff := [assetExact, assetLike] }

/-- The C4 fixture bag: vesselName EVEREST, no other filters. -/
def pVessel : Params := [("vesselName", Value.vStr "EVEREST")]

/-- The C6/C7 fixture track payload. -/
def pTrack : Params :=
  [("internetMessageId", Value.vStr "mid-1"), ("quoteId", Value.vInt 7),
   ("quoteNo", Value.vStr "Q7"), ("customerId", Value.vInt 3),
   ("assetId", Value.vInt 9)]

-- ====================================================================
-- Helper lemmas
-- ====================================================================

theorem getParam_eq_vNull {p : Params} {k : String}
    (h : List.lookup k p = none) : getParam p k = Value.vNull := by
  simp [getParam, h]

theorem truthy_vStr_of_ne {s : String} (h : s ≠ "") :
    truthy (Value.vStr s) = true := by
  simpa [truthy] using h

theorem track_email_fresh (st : Store) (data : Params)
    (h : truthy (getParam data "internetMessageId") = true) :
    track_email (Session.fresh st) data
      = (Session.fresh { st with
            emailTracking := st.emailTracking ++ [trackRowOf data] },
         .ok (J.obj [("ok", J.b true)])) := by
  unfold track_email
  rw [h]
  rfl

theorem trackingMatches_trackRowOf {data : Params} {imid : String}
    (hid : getParam data "internetMessageId" = Value.vStr imid) :
    trackingMatches imid (trackRowOf data) = true := by
  simp [trackingMatches, trackRowOf, hid]

theorem fst_committed_fresh (a : Store) (e : Except HError J) :
    ((Session.fresh a, e) : Session × Except HError J).1.committed = a := rfl

theorem fresh_draft (a : Store) : (Session.fresh a).draft = a := rfl

-- ====================================================================
-- Claim theorems
-- ====================================================================

/-- C9: body normalization (html_to_text) maps empty or absent input to the
empty string, and maps markup to its text content with tags stripped and
the text fragments separated by newlines: two paragraphs become their texts
separated by a line break. -/
theorem C9_html_to_text :
    html_to_text "" = "" ∧
    html_to_text "<p>Hello</p><p>World</p>" = "Hello\nWorld" ∧
    html_to_text "a<br>b" = "a\nb" :=
  ⟨rfl, rfl, rfl⟩

/-- C3: for every queryType matching no known operation name, the router
returns the client error 400 "queryType no soportado" with the session
untouched — no handler runs and the store is unchanged. -/
theorem C3_unsupported_op (db : Session) (b : QueryRequest) (oracle : Nat → Bool)
    (h : b.queryType ∉ supportedOps) :
    run_query db b oracle = (db, .error (HError.http 400 "queryType no soportado")) := by
  simp only [supportedOps, List.mem_cons, List.not_mem_nil, or_false, not_or] at h
  obtain ⟨h1, h2, h3, h4, h5, h6, h7, h8, h9, h10, h11, h12, h13, h14, h15, h16, h17⟩ := h
  simp [run_query, dispatchQuery, beq_iff_eq, h1, h2, h3, h4, h5, h6, h7, h8,
    h9, h10, h11, h12, h13, h14, h15, h16, h17]

/-- Closed instance of C3 at a concrete unsupported queryType. -/
theorem C3_witness :
    run_query sess0 bodyUnsupported noFail
      = (sess0, .error (HError.http 400 "queryType no soportado")) :=
  C3_unsupported_op sess0 bodyUnsupported noFail (by decide)

/-- C10: the required-parameter guards are truthiness checks, so a supplied
but falsy value (0, empty string, False, null) is treated as missing and
rejected with the 400 validation error: assets_by_customer with customerId 0
and no vesselName, create_meeting with customerId 0 (or False/null fields),
and create_quote_from_asset with an empty-string customerId are all
rejected even though a value was supplied. -/
theorem C10_falsy_required :
    truthy (Value.vInt 0) = false ∧ truthy (Value.vStr "") = false ∧
    truthy (Value.vBool false) = false ∧ truthy Value.vNull = false ∧
    dispatchQuery sess0 "assets_by_customer"
        [("customerId", Value.vInt 0)] noFail
      = (sess0, .error (HError.http 400 "Debes enviar customerId o vesselName")) ∧
    dispatchQuery sess0 "create_meeting"
        [("customerId", Value.vInt 0), ("meetingDate", Value.vStr "2025-01-01")] noFail
      = (sess0, .error (HError.http 400
          "customerId y meetingDate son obligatorios para crear el meeting")) ∧
    dispatchQuery sess0 "create_quote_from_asset"
        [("customerId", Value.vStr ""), ("assetId", Value.vInt 5)] noFail
      = (sess0, .error (HError.http 400
          "customerId y assetId son obligatorios para crear la cotización")) ∧
    dispatchQuery sess0 "create_meeting"
        [("customerId", Value.vBool false), ("meetingDate", Value.vNull)] noFail
      = (sess0, .error (HError.http 400
          "customerId y meetingDate son obligatorios para crear el meeting")) :=
  ⟨rfl, rfl, rfl, rfl, rfl, rfl, rfl, rfl⟩

/-- C7: track is not idempotent — two track calls with the same global
message id insert two tracking rows for that identifier (the second call
neither detects nor replaces the first). -/
theorem C7_track_twice (st : Store) (data : Params) (imid : String)
    (hid : getParam data "internetMessageId" = Value.vStr imid)
    (hne : imid ≠ "") :
    countTracking (track_email (Session.fresh
        ((track_email (Session.fresh st) data).1.committed)) data).1.committed imid
      = countTracking st imid + 2 := by
  have ht : truthy (getParam data "internetMessageId") = true := by
    rw [hid]; exact truthy_vStr_of_ne hne
  have hm := trackingMatches_trackRowOf hid
  rw [track_email_fresh st data ht, fst_committed_fresh]
  rw [track_email_fresh _ data ht, fst_committed_fresh]
  simp [countTracking, List.filter_append, hm]

/-- Closed instance of C7 at a concrete store and payload. -/
theorem C7_witness :
    countTracking (track_email (Session.fresh
        ((track_email (Session.fresh emptyStore) pTrack).1.committed)) pTrack).1.committed "mid-1"
      = countTracking emptyStore "mid-1" + 2 :=
  C7_track_twice emptyStore pTrack "mid-1" rfl (by decide)

/-- C6: round trip of the tracking workflow — with no tracking row for a
global message id, was_processed answers processed false; after one track
call with that id, was_processed answers processed true together with
exactly the linkage values (quoteId, quoteNo, customerId, assetId) supplied
at track time. -/
theorem C6_roundtrip (st : Store) (data : Params) (imid : String)
    (h0 : st.emailTracking.filter (trackingMatches imid) = [])
    (hid : getParam data "internetMessageId" = Value.vStr imid)
    (hne : imid ≠ "") :
    was_processed (Session.fresh st) imid
      = (Session.fresh st, .ok (J.obj [("processed", J.b false)])) ∧
    was_processed (Session.fresh
        ((track_email (Session.fresh st) data).1.committed)) imid
      = (Session.fresh ((track_email (Session.fresh st) data).1.committed),
         .ok (J.obj [("processed", J.b true),
           ("quoteId", valJ (getParam data "quoteId")),
           ("quoteNo", valJ (getParam data "quoteNo")),
           ("customerId", valJ (getParam data "customerId")),
           ("assetId", valJ (getParam data "assetId"))])) := by
  have ht : truthy (getParam data "internetMessageId") = true := by
    rw [hid]; exact truthy_vStr_of_ne hne
  have hm := trackingMatches_trackRowOf hid
  constructor
  · unfold was_processed
    simp [Session.fresh, h0]
  · rw [track_email_fresh _ _ ht, fst_committed_fresh]
    unfold was_processed
    simp only [fresh_draft, List.filter_append, h0, List.nil_append,
      List.filter_cons, hm, if_true, List.filter_nil, List.head?_cons]
    simp [trackRowOf]

/-- Closed instance of C6 at a concrete store and payload. -/
theorem C6_witness :
    was_processed (Session.fresh
        ((track_email (Session.fresh emptyStore) pTrack).1.committed)) "mid-1"
      = (Session.fresh ((track_email (Session.fresh emptyStore) pTrack).1.committed),
         .ok (J.obj [("processed", J.b true),
           ("quoteId", valJ (getParam pTrack "quoteId")),
           ("quoteNo", valJ (getParam pTrack "quoteNo")),
           ("customerId", valJ (getParam pTrack "customerId")),
           ("assetId", valJ (getParam pTrack "assetId"))])) :=
  (C6_roundtrip emptyStore pTrack "mid-1" rfl rfl (by decide)).2

theorem quotes_count_empty_aux (st : Store) (branch status : Value)
    (hb : truthy branch = true) (hs : truthy status = true)
    (h : st.globalQuotes.filter (quoteCountMatches branch status) = []) :
    get_quotes_count_by_branch_status (Session.fresh st)
        [("branch", branch), ("status", status)]
      = (Session.fresh st, .ok (J.arr [J.obj [("branch", valJ branch),
          ("status", valJ status), ("quotesCount", J.i 0), ("totalAmount", J.i 0)]])) := by
  unfold get_quotes_count_by_branch_status
  dsimp only
  rw [show getParam [("branch", branch), ("status", status)] "branch" = branch from rfl,
      show getParam [("branch", branch), ("status", status)] "status" = status from rfl,
      hb, hs]
  simp only [Bool.not_true, Bool.or_self, Bool.false_eq_true, if_false, fresh_draft, h]
  rfl

/-- C8: quotes_count_by_branch_status for branch AUK and status Open against
a store with no matching quote rows answers the ok-envelope holding exactly
one field-map echoing the branch and status with quotesCount 0 and
totalAmount 0. -/
theorem C8_quotes_count_empty (st : Store) (oracle : Nat → Bool)
    (h : st.globalQuotes.filter
        (quoteCountMatches (Value.vStr "AUK") (Value.vStr "Open")) = []) :
    run_query (Session.fresh st) body8 oracle
      = (Session.fresh st, .ok (J.obj [("ok", J.b true),
          ("data", J.arr [J.obj [("branch", J.s "AUK"), ("status", J.s "Open"),
            ("quotesCount", J.i 0), ("totalAmount", J.i 0)]])])) := by
  have hstep : run_query (Session.fresh st) body8 oracle
      = wrapOk (get_quotes_count_by_branch_status (Session.fresh st)
          [("branch", Value.vStr "AUK"), ("status", Value.vStr "Open")]) := rfl
  rw [hstep, quotes_count_empty_aux st (Value.vStr "AUK") (Value.vStr "Open") rfl rfl h]
  rfl

/-- Closed instance of C8 over the empty store. -/
theorem C8_witness :
    run_query (Session.fresh emptyStore) body8 noFail
      = (Session.fresh emptyStore, .ok (J.obj [("ok", J.b true),
          ("data", J.arr [J.obj [("branch", J.s "AUK"), ("status", J.s "Open"),
            ("quotesCount", J.i 0), ("totalAmount", J.i 0)]])])) :=
  C8_quotes_count_empty emptyStore noFail rfl

/-- C4: assets_by_customer with a truthy vesselName runs the exact
vessel-name query first; whenever it yields at least one row the handler
returns exactly those rows and never falls through to the substring query,
and only when the exact match is empty does it run the substring query with
the optional filters. -/
theorem C4_exact_match_first (st : Store) (p : Params) (limit : Int)
    (hl : pyInt (getParamD p "limit" (Value.vInt 50)) = some limit)
    (hv : truthy (getParam p "vesselName") = true) :
    (exactAssetRows st p limit ≠ [] →
      get_assets_by_customer (Session.fresh st) p
        = (Session.fresh st, .ok (J.arr ((exactAssetRows st p limit).map assetJ)))) ∧
    (exactAssetRows st p limit = [] →
      get_assets_by_customer (Session.fresh st) p
        = (Session.fresh st, .ok (J.arr ((likeAssetRows st p limit).map assetJ)))) := by
  have hval : (!truthy (getParam p "customerId")
      && !truthy (getParam p "vesselName")) = false := by
    rw [hv]; simp
  constructor <;> intro hE <;>
    · unfold get_assets_by_customer
      rw [hl]
      simp only [hval, Bool.false_eq_true, if_false, hv, if_true, fresh_draft]
      cases hx : exactAssetRows st p limit with
      | nil => simp_all
      | cons a as => simp_all

/-- Closed instance of C4: the store holds an exact match (EVEREST) and a
substring-only match (EVEREST II); the handler returns only the exact row,
even though the substring query would also match the second row. -/
theorem C4_witness :
    likeContains assetLike.vesselName (pyStr (getParam pVessel "vesselName")) = true ∧
    get_assets_by_customer (Session.fresh storeAssets) pVessel
      = (Session.fresh storeAssets,
         .ok (J.arr ((exactAssetRows storeAssets pVessel 50).map assetJ))) :=
  ⟨rfl, (C4_exact_match_first storeAssets pVessel 50 rfl rfl).1 (by decide)⟩

/-- C2: create_meeting_action with branch and employeeId both present
performs exactly two inserts — the action row and the responsible-party
row — in one transaction: on success the committed store gains exactly
those two rows (and the two identity counters advance) and nothing else;
if the responsible-party insert raises, the whole transaction rolls back
and the store is exactly the initial one. -/
theorem C2_action_atomicity (st : Store) (p : Params)
    (hm : truthy (getParam p "meetingId") = true)
    (hd : truthy (getParam p "description") = true)
    (hb : getParam p "branch" ≠ Value.vNull)
    (he : getParam p "employeeId" ≠ Value.vNull) :
    create_meeting_action (Session.fresh st) p noFail
      = (Session.fresh (actionSuccessStore st p), .ok (actionSuccessJ st p)) ∧
    create_meeting_action (Session.fresh st) p failSecond
      = (Session.fresh st, .error (HError.http 500 "SQLAlchemyError")) := by
  have hcond : (!truthy (getParam p "meetingId")
      || !truthy (getParam p "description")) = false := by
    rw [hm, hd]; rfl
  have hbe : (getParam p "branch" != Value.vNull
      && getParam p "employeeId" != Value.vNull) = true := by
    simp [bne_iff_ne, hb, he]
  constructor <;>
    · unfold create_meeting_action
      dsimp only
      rw [hcond]
      simp only [Bool.false_eq_true, if_false, noFail, failSecond, hbe, if_true,
        Session.execW, Session.commitTx, Session.rollbackTx, Session.fresh,
        fresh_draft]
      rfl

/-- Closed instance of C2 at a concrete store and parameters. -/
theorem C2_witness :
    create_meeting_action (Session.fresh emptyStore) pAction noFail
      = (Session.fresh (actionSuccessStore emptyStore pAction),
         .ok (actionSuccessJ emptyStore pAction)) ∧
    create_meeting_action (Session.fresh emptyStore) pAction failSecond
      = (Session.fresh emptyStore, .error (HError.http 500 "SQLAlchemyError")) :=
  C2_action_atomicity emptyStore pAction rfl rfl (by decide) (by decide)

theorem lookup_append_or (k : String) (ps qs : Params) :
    List.lookup k (ps ++ qs) = Option.or (List.lookup k ps) (List.lookup k qs) := by
  induction ps with
  | nil => simp [List.lookup]
  | cons hd tl ih =>
      obtain ⟨a, b⟩ := hd
      cases hk : (k == a) with
      | true => simp [List.lookup, hk, Option.or]
      | false => simp [List.lookup, hk, ih]

theorem lookup_single_ne {k a : String} {v : Value} (h : a ≠ k) :
    List.lookup k ([(a, v)] : Params) = none := by
  have : (k == a) = false := by
    simp [h.symm]
  simp [List.lookup, this]

theorem copyFlat_preserves (b : QueryRequest) (l : List String) (ps : Params)
    (k : String) (v : Value) (h : List.lookup k ps = some v) :
    List.lookup k (copyFlat b l ps) = some v := by
  induction l generalizing ps with
  | nil => simpa [copyFlat] using h
  | cons f fs ih =>
      unfold copyFlat
      by_cases hc : (fieldValue b f != Value.vNull && (List.lookup f ps).isNone) = true
      · rw [if_pos hc]
        apply ih
        rw [lookup_append_or, h]
        rfl
      · rw [if_neg hc]
        exact ih ps h

theorem copyFlat_copies (b : QueryRequest) (l : List String) (ps : Params)
    (f : String) (hf : f ∈ l) (habs : List.lookup f ps = none)
    (hval : fieldValue b f ≠ Value.vNull) :
    List.lookup f (copyFlat b l ps) = some (fieldValue b f) := by
  induction l generalizing ps with
  | nil => cases hf
  | cons g gs ih =>
      unfold copyFlat
      by_cases hg : g = f
      · subst hg
        have hc : (fieldValue b g != Value.vNull && (List.lookup g ps).isNone) = true := by
          simp [bne_iff_ne, hval, habs]
        rw [if_pos hc]
        apply copyFlat_preserves
        rw [lookup_append_or, habs]
        simp [List.lookup]
      · have hf2 : f ∈ gs := by
          rcases List.mem_cons.mp hf with h1 | h1
          · exact absurd h1.symm hg
          · exact h1
        by_cases hc : (fieldValue b g != Value.vNull && (List.lookup g ps).isNone) = true
        · rw [if_pos hc]
          refine ih _ hf2 ?_
          rw [lookup_append_or, habs, lookup_single_ne hg]
          rfl
        · rw [if_neg hc]
          exact ih ps hf2 habs

theorem copyFlat_skips (b : QueryRequest) (l : List String) (ps : Params)
    (f : String) (hval : fieldValue b f = Value.vNull)
    (habs : List.lookup f ps = none) :
    List.lookup f (copyFlat b l ps) = none := by
  induction l generalizing ps with
  | nil => simpa [copyFlat] using habs
  | cons g gs ih =>
      unfold copyFlat
      by_cases hg : g = f
      · subst hg
        have hc : ¬ ((fieldValue b g != Value.vNull
            && (List.lookup g ps).isNone) = true) := by
          simp [bne_iff_ne, hval]
        rw [if_neg hc]
        exact ih ps habs
      · by_cases hc : (fieldValue b g != Value.vNull && (List.lookup g ps).isNone) = true
        · rw [if_pos hc]
          apply ih
          rw [lookup_append_or, habs, lookup_single_ne hg]
          rfl
        · rw [if_neg hc]
          exact ih ps habs

/-- C5: the router's normalization copies each field named in the loop into
the bag exactly when the field is set (non-None) and the bag lacks that key;
keys already in the bag are never overwritten, so the bag's value wins on
conflict. -/
theorem C5_normalization (b : QueryRequest) (f : String) (hf : f ∈ flatFields) :
    (∀ k v, List.lookup k (b.params.getD []) = some v →
        List.lookup k (normalizeParams b) = some v) ∧
    (List.lookup f (b.params.getD []) = none → fieldValue b f ≠ Value.vNull →
        List.lookup f (normalizeParams b) = some (fieldValue b f)) ∧
    (List.lookup f (b.params.getD []) = none → fieldValue b f = Value.vNull →
        List.lookup f (normalizeParams b) = none) :=
  ⟨fun k v h => copyFlat_preserves b flatFields _ k v h,
   fun h1 h2 => copyFlat_copies b flatFields _ f hf h1 h2,
   fun h1 h2 => copyFlat_skips b flatFields _ f h2 h1⟩

/-- Closed instance of C5: in bodyFlat the bag's branch value wins over the
flat branch field, and the flat name field is copied in. -/
theorem C5_witness :
    List.lookup "branch" (normalizeParams bodyFlat) = some (Value.vStr "BAG") ∧
    List.lookup "name" (normalizeParams bodyFlat) = some (Value.vStr "Acme") :=
  ⟨(C5_normalization bodyFlat "name" (by decide)).1 "branch" (Value.vStr "BAG") rfl,
   (C5_normalization bodyFlat "name" (by decide)).2.1 rfl (by decide)⟩

theorem validationFail_or {a b : Bool} (h : a = false ∨ b = false) :
    (!a || !b) = true := by
  rcases h with h | h <;> simp [h]

theorem quotes_by_customer_missing (db : Session) (p : Params)
    (h : truthy (getParam p "customerName") = false) :
    get_quotes_by_customer db p
      = (db, .error (HError.http 400 "customerName es obligatorio")) := by
  unfold get_quotes_by_customer
  dsimp only
  rw [h]
  rfl

theorem quotes_count_missing (db : Session) (p : Params)
    (h : truthy (getParam p "branch") = false ∨
         truthy (getParam p "status") = false) :
    get_quotes_count_by_branch_status db p
      = (db, .error (HError.http 400 "branch y status son obligatorios")) := by
  unfold get_quotes_count_by_branch_status
  dsimp only
  rw [validationFail_or h]
  rfl

theorem customer_contacts_missing (db : Session) (p : Params)
    (h : truthy (getParam p "customerId") = false) :
    get_customer_contacts db p
      = (db, .error (HError.http 400
          "customerId es obligatorio para obtener los contactos")) := by
  unfold get_customer_contacts
  dsimp only
  rw [h]
  rfl

theorem meetings_by_customer_missing (db : Session) (p : Params)
    (h : truthy (getParam p "customerId") = false) :
    get_meetings_by_customer db p
      = (db, .error (HError.http 400
          "customerId es obligatorio para obtener los meetings")) := by
  unfold get_meetings_by_customer
  dsimp only
  rw [h]
  rfl

theorem meeting_key_topics_missing (db : Session) (p : Params)
    (h : truthy (getParam p "meetingId") = false) :
    get_meeting_key_topics db p
      = (db, .error (HError.http 400
          "meetingId es obligatorio para obtener los key topics")) := by
  unfold get_meeting_key_topics
  dsimp only
  rw [h]
  rfl

theorem meeting_spec_ops_missing (db : Session) (p : Params)
    (h : truthy (getParam p "meetingId") = false) :
    get_meeting_spec_ops db p
      = (db, .error (HError.http 400
          "meetingId es obligatorio para obtener los spec ops")) := by
  unfold get_meeting_spec_ops
  dsimp only
  rw [h]
  rfl

theorem meeting_actions_missing (db : Session) (p : Params)
    (h : truthy (getParam p "meetingId") = false) :
    get_meeting_actions db p
      = (db, .error (HError.http 400
          "meetingId es obligatorio para obtener las action items")) := by
  unfold get_meeting_actions
  dsimp only
  rw [h]
  rfl

theorem create_meeting_missing (db : Session) (p : Params) (oracle : Nat → Bool)
    (h : truthy (getParam p "customerId") = false ∨
         truthy (getParam p "meetingDate") = false) :
    create_meeting db p oracle = (db, .error (HError.http 400
      "customerId y meetingDate son obligatorios para crear el meeting")) := by
  unfold create_meeting
  dsimp only
  rw [validationFail_or h]
  rfl

theorem create_meeting_key_topic_missing (db : Session) (p : Params)
    (oracle : Nat → Bool)
    (h : truthy (getParam p "meetingId") = false ∨
         truthy (getParam p "keyTopic") = false) :
    create_meeting_key_topic db p oracle = (db, .error (HError.http 400
      "meetingId y keyTopic son obligatorios para crear un key topic")) := by
  unfold create_meeting_key_topic
  dsimp only
  rw [validationFail_or h]
  rfl

theorem create_meeting_spec_op_missing (db : Session) (p : Params)
    (oracle : Nat → Bool)
    (h : truthy (getParam p "meetingId") = false ∨
         truthy (getParam p "specOp") = false) :
    create_meeting_spec_op db p oracle = (db, .error (HError.http 400
      "meetingId y specOp son obligatorios para crear una spec op")) := by
  unfold create_meeting_spec_op
  dsimp only
  rw [validationFail_or h]
  rfl

theorem create_meeting_action_missing (db : Session) (p : Params)
    (oracle : Nat → Bool)
    (h : truthy (getParam p "meetingId") = false ∨
         truthy (getParam p "description") = false) :
    create_meeting_action db p oracle = (db, .error (HError.http 400
      "meetingId y description son obligatorios para crear una action")) := by
  unfold create_meeting_action
  dsimp only
  rw [validationFail_or h]
  rfl

theorem create_alatas_missing (db : Session) (p : Params) (oracle : Nat → Bool)
    (h : truthy (getParam p "meetingId") = false ∨
         truthy (getParam p "employeeId") = false) :
    create_meeting_alatas_attendance db p oracle = (db, .error (HError.http 400
      "meetingId y employeeId son obligatorios para crear un asistente Alatas")) := by
  unfold create_meeting_alatas_attendance
  dsimp only
  rw [validationFail_or h]
  rfl

theorem create_cust_att_missing (db : Session) (p : Params) (oracle : Nat → Bool)
    (h : truthy (getParam p "meetingId") = false ∨
         truthy (getParam p "contactId") = false) :
    create_meeting_cust_attendance db p oracle = (db, .error (HError.http 400
      "meetingId y contactId son obligatorios para crear un asistente cliente")) := by
  unfold create_meeting_cust_attendance
  dsimp only
  rw [validationFail_or h]
  rfl

theorem create_quote_missing (db : Session) (p : Params) (oracle : Nat → Bool)
    (h : truthy (getParam p "customerId") = false ∨
         truthy (getParam p "assetId") = false) :
    create_quote_from_asset db p oracle = (db, .error (HError.http 400
      "customerId y assetId son obligatorios para crear la cotización")) := by
  unfold create_quote_from_asset
  dsimp only
  rw [validationFail_or h]
  rfl

theorem assets_search_global_missing (db : Session) (p : Params) (limit : Int)
    (hl : pyInt (getParamD p "limit" (Value.vInt 50)) = some limit)
    (hv : truthy (getParam p "vesselName") = false) :
    search_assets_global db p = (db, .error (HError.http 400
      "You must send vesselName to search global assets")) := by
  unfold search_assets_global
  rw [hl]
  dsimp only
  rw [hv]
  rfl

theorem assets_by_customer_missing (db : Session) (p : Params) (limit : Int)
    (hl : pyInt (getParamD p "limit" (Value.vInt 50)) = some limit)
    (hc : truthy (getParam p "customerId") = false)
    (hv : truthy (getParam p "vesselName") = false) :
    get_assets_by_customer db p = (db, .error (HError.http 400
      "Debes enviar customerId o vesselName")) := by
  unfold get_assets_by_customer
  rw [hl]
  dsimp only
  rw [hc, hv]
  rfl

/-- C1 as stated is false: in assets_search_global (and assets_by_customer)
the `int()` conversion of the optional limit runs before the
required-parameter check, so a bag whose limit is not integer-convertible
(here: None) with the required vesselName absent raises an uncaught
conversion error — a generic server error, not a validation (client)
error — although still before any statement and with the store unchanged. -/
theorem C1_counterexample :
    "assets_search_global" ∈ supportedOps ∧
    "vesselName" ∈ requiredSpec "assets_search_global" ∧
    List.lookup "vesselName" cexBag = none ∧
    dispatchQuery sess0 "assets_search_global" cexBag noFail
      = (sess0, .error (HError.pyError "int() conversion failed")) ∧
    (∀ st msg, HError.pyError "int() conversion failed" ≠ HError.http st msg) :=
  ⟨by decide, by decide, rfl, rfl, fun st msg h => nomatch h⟩

/-- C1, amended: for every supported queryType, when a required parameter of
the handler is absent from the merged parameter bag and any limit value
present in the bag is integer-convertible, the handler raises the 400
validation error before executing any statement, so no write happens and
the session (hence the store) is returned unchanged.  assets_by_customer's
disjunctive requirement (customerId or vesselName) is the second conjunct. -/
theorem C1_missing_param_validation (qt : String) (hqt : qt ∈ supportedOps)
    (db : Session) (p : Params) (oracle : Nat → Bool)
    (hlimit : ∀ v, List.lookup "limit" p = some v → (pyInt v).isSome = true) :
    (∀ r ∈ requiredSpec qt, List.lookup r p = none →
       ∃ msg, dispatchQuery db qt p oracle = (db, .error (HError.http 400 msg))) ∧
    (qt = "assets_by_customer" → List.lookup "customerId" p = none →
       List.lookup "vesselName" p = none →
       ∃ msg, dispatchQuery db qt p oracle
         = (db, .error (HError.http 400 msg))) := by
  have hlim : ∃ n, pyInt (getParamD p "limit" (Value.vInt 50)) = some n := by
    cases hld : List.lookup "limit" p with
    | none => exact ⟨50, by simp [getParamD, hld, pyInt]⟩
    | some v =>
        obtain ⟨n, hn⟩ := Option.isSome_iff_exists.mp (hlimit v hld)
        exact ⟨n, by simp [getParamD, hld, hn]⟩
  obtain ⟨nl, hnl⟩ := hlim
  have hfalse : ∀ {k : String}, List.lookup k p = none →
      truthy (getParam p k) = false := by
    intro k hk
    rw [getParam_eq_vNull hk]
    rfl
  simp only [supportedOps, List.mem_cons, List.not_mem_nil, or_false] at hqt
  rcases hqt with rfl | rfl | rfl | rfl | rfl | rfl | rfl | rfl | rfl | rfl |
    rfl | rfl | rfl | rfl | rfl | rfl | rfl
  · -- customers_search: no required parameters
    refine ⟨?_, fun h => absurd h (by decide)⟩
    intro r hr
    rw [show requiredSpec "customers_search" = [] from rfl] at hr
    exact absurd hr (List.not_mem_nil r)
  · -- quotes_by_customer
    refine ⟨?_, fun h => absurd h (by decide)⟩
    intro r hr hnone
    rw [show requiredSpec "quotes_by_customer" = ["customerName"] from rfl] at hr
    rcases List.mem_singleton.mp hr with rfl
    refine ⟨"customerName es obligatorio", ?_⟩
    show wrapOk (get_quotes_by_customer db p) = _
    rw [quotes_by_customer_missing db p (hfalse hnone)]
    rfl
  · -- quotes_count_by_branch_status
    refine ⟨?_, fun h => absurd h (by decide)⟩
    intro r hr hnone
    rw [show requiredSpec "quotes_count_by_branch_status"
        = ["branch", "status"] from rfl] at hr
    refine ⟨"branch y status son obligatorios", ?_⟩
    show wrapOk (get_quotes_count_by_branch_status db p) = _
    have hor : truthy (getParam p "branch") = false ∨
        truthy (getParam p "status") = false := by
      rcases List.mem_cons.mp hr with rfl | hr2
      · exact Or.inl (hfalse hnone)
      · rcases List.mem_singleton.mp hr2 with rfl
        exact Or.inr (hfalse hnone)
    rw [quotes_count_missing db p hor]
    rfl
  · -- assets_by_customer: the requirement is disjunctive
    refine ⟨?_, ?_⟩
    · intro r hr
      rw [show requiredSpec "assets_by_customer" = [] from rfl] at hr
      exact absurd hr (List.not_mem_nil r)
    · intro _ hc hv
      refine ⟨"Debes enviar customerId o vesselName", ?_⟩
      show wrapOk (get_assets_by_customer db p) = _
      rw [assets_by_customer_missing db p nl hnl (hfalse hc) (hfalse hv)]
      rfl
  · -- assets_search_global
    refine ⟨?_, fun h => absurd h (by decide)⟩
    intro r hr hnone
    rw [show requiredSpec "assets_search_global" = ["vesselName"] from rfl] at hr
    rcases List.mem_singleton.mp hr with rfl
    refine ⟨"You must send vesselName to search global assets", ?_⟩
    show wrapOk (search_assets_global db p) = _
    rw [assets_search_global_missing db p nl hnl (hfalse hnone)]
    rfl
  · -- create_quote_from_asset
    refine ⟨?_, fun h => absurd h (by decide)⟩
    intro r hr hnone
    rw [show requiredSpec "create_quote_from_asset"
        = ["customerId", "assetId"] from rfl] at hr
    refine ⟨"customerId y assetId son obligatorios para crear la cotización", ?_⟩
    show wrapOk (create_quote_from_asset db p oracle) = _
    have hor : truthy (getParam p "customerId") = false ∨
        truthy (getParam p "assetId") = false := by
      rcases List.mem_cons.mp hr with rfl | hr2
      · exact Or.inl (hfalse hnone)
      · rcases List.mem_singleton.mp hr2 with rfl
        exact Or.inr (hfalse hnone)
    rw [create_quote_missing db p oracle hor]
    rfl
  · -- customer_contacts
    refine ⟨?_, fun h => absurd h (by decide)⟩
    intro r hr hnone
    rw [show requiredSpec "customer_contacts" = ["customerId"] from rfl] at hr
    rcases List.mem_singleton.mp hr with rfl
    refine ⟨"customerId es obligatorio para obtener los contactos", ?_⟩
    show wrapOk (get_customer_contacts db p) = _
    rw [customer_contacts_missing db p (hfalse hnone)]
    rfl
  · -- meetings_by_customer
    refine ⟨?_, fun h => absurd h (by decide)⟩
    intro r hr hnone
    rw [show requiredSpec "meetings_by_customer" = ["customerId"] from rfl] at hr
    rcases List.mem_singleton.mp hr with rfl
    refine ⟨"customerId es obligatorio para obtener los meetings", ?_⟩
    show wrapOk (get_meetings_by_customer db p) = _
    rw [meetings_by_customer_missing db p (hfalse hnone)]
    rfl
  · -- meeting_key_topics
    refine ⟨?_, fun h => absurd h (by decide)⟩
    intro r hr hnone
    rw [show requiredSpec "meeting_key_topics" = ["meetingId"] from rfl] at hr
    rcases List.mem_singleton.mp hr with rfl
    refine ⟨"meetingId es obligatorio para obtener los key topics", ?_⟩
    show wrapOk (get_meeting_key_topics db p) = _
    rw [meeting_key_topics_missing db p (hfalse hnone)]
    rfl
  · -- meeting_spec_ops
    refine ⟨?_, fun h => absurd h (by decide)⟩
    intro r hr hnone
    rw [show requiredSpec "meeting_spec_ops" = ["meetingId"] from rfl] at hr
    rcases List.mem_singleton.mp hr with rfl
    refine ⟨"meetingId es obligatorio para obtener los spec ops", ?_⟩
    show wrapOk (get_meeting_spec_ops db p) = _
    rw [meeting_spec_ops_missing db p (hfalse hnone)]
    rfl
  · -- meeting_actions
    refine ⟨?_, fun h => absurd h (by decide)⟩
    intro r hr hnone
    rw [show requiredSpec "meeting_actions" = ["meetingId"] from rfl] at hr
    rcases List.mem_singleton.mp hr with rfl
    refine ⟨"meetingId es obligatorio para obtener las action items", ?_⟩
    show wrapOk (get_meeting_actions db p) = _
    rw [meeting_actions_missing db p (hfalse hnone)]
    rfl
  · -- create_meeting
    refine ⟨?_, fun h => absurd h (by decide)⟩
    intro r hr hnone
    rw [show requiredSpec "create_meeting"
        = ["customerId", "meetingDate"] from rfl] at hr
    refine ⟨"customerId y meetingDate son obligatorios para crear el meeting", ?_⟩
    show wrapOk (create_meeting db p oracle) = _
    have hor : truthy (getParam p "customerId") = false ∨
        truthy (getParam p "meetingDate") = false := by
      rcases List.mem_cons.mp hr with rfl | hr2
      · exact Or.inl (hfalse hnone)
      · rcases List.mem_singleton.mp hr2 with rfl
        exact Or.inr (hfalse hnone)
    rw [create_meeting_missing db p oracle hor]
    rfl
  · -- create_meeting_key_topic
    refine ⟨?_, fun h => absurd h (by decide)⟩
    intro r hr hnone
    rw [show requiredSpec "create_meeting_key_topic"
        = ["meetingId", "keyTopic"] from rfl] at hr
    refine ⟨"meetingId y keyTopic son obligatorios para crear un key topic", ?_⟩
    show wrapOk (create_meeting_key_topic db p oracle) = _
    have hor : truthy (getParam p "meetingId") = false ∨
        truthy (getParam p "keyTopic") = false := by
      rcases List.mem_cons.mp hr with rfl | hr2
      · exact Or.inl (hfalse hnone)
      · rcases List.mem_singleton.mp hr2 with rfl
        exact Or.inr (hfalse hnone)
    rw [create_meeting_key_topic_missing db p oracle hor]
    rfl
  · -- create_meeting_spec_op
    refine ⟨?_, fun h => absurd h (by decide)⟩
    intro r hr hnone
    rw [show requiredSpec "create_meeting_spec_op"
        = ["meetingId", "specOp"] from rfl] at hr
    refine ⟨"meetingId y specOp son obligatorios para crear una spec op", ?_⟩
    show wrapOk (create_meeting_spec_op db p oracle) = _
    have hor : truthy (getParam p "meetingId") = false ∨
        truthy (getParam p "specOp") = false := by
      rcases List.mem_cons.mp hr with rfl | hr2
      · exact Or.inl (hfalse hnone)
      · rcases List.mem_singleton.mp hr2 with rfl
        exact Or.inr (hfalse hnone)
    rw [create_meeting_spec_op_missing db p oracle hor]
    rfl
  · -- create_meeting_action
    refine ⟨?_, fun h => absurd h (by decide)⟩
    intro r hr hnone
    rw [show requiredSpec "create_meeting_action"
        = ["meetingId", "description"] from rfl] at hr
    refine ⟨"meetingId y description son obligatorios para crear una action", ?_⟩
    show wrapOk (create_meeting_action db p oracle) = _
    have hor : truthy (getParam p "meetingId") = false ∨
        truthy (getParam p "description") = false := by
      rcases List.mem_cons.mp hr with rfl | hr2
      · exact Or.inl (hfalse hnone)
      · rcases List.mem_singleton.mp hr2 with rfl
        exact Or.inr (hfalse hnone)
    rw [create_meeting_action_missing db p oracle hor]
    rfl
  · -- create_meeting_alatas_attendance
    refine ⟨?_, fun h => absurd h (by decide)⟩
    intro r hr hnone
    rw [show requiredSpec "create_meeting_alatas_attendance"
        = ["meetingId", "employeeId"] from rfl] at hr
    refine ⟨"meetingId y employeeId son obligatorios para crear un asistente Alatas", ?_⟩
    show wrapOk (create_meeting_alatas_attendance db p oracle) = _
    have hor : truthy (getParam p "meetingId") = false ∨
        truthy (getParam p "employeeId") = false := by
      rcases List.mem_cons.mp hr with rfl | hr2
      · exact Or.inl (hfalse hnone)
      · rcases List.mem_singleton.mp hr2 with rfl
        exact Or.inr (hfalse hnone)
    rw [create_alatas_missing db p oracle hor]
    rfl
  · -- create_meeting_cust_attendance
    refine ⟨?_, fun h => absurd h (by decide)⟩
    intro r hr hnone
    rw [show requiredSpec "create_meeting_cust_attendance"
        = ["meetingId", "contactId"] from rfl] at hr
    refine ⟨"meetingId y contactId son obligatorios para crear un asistente cliente", ?_⟩
    show wrapOk (create_meeting_cust_attendance db p oracle) = _
    have hor : truthy (getParam p "meetingId") = false ∨
        truthy (getParam p "contactId") = false := by
      rcases List.mem_cons.mp hr with rfl | hr2
      · exact Or.inl (hfalse hnone)
      · rcases List.mem_singleton.mp hr2 with rfl
        exact Or.inr (hfalse hnone)
    rw [create_cust_att_missing db p oracle hor]
    rfl

/-- Closed instance of the amended C1: create_meeting with an empty bag is
rejected with a 400 before any statement and the session is unchanged. -/
theorem C1_witness :
    ∃ msg, dispatchQuery sess0 "create_meeting" [] noFail
      = (sess0, .error (HError.http 400 msg)) :=
  (C1_missing_param_validation "create_meeting" (by decide) sess0 [] noFail
    (fun v h => nomatch h)).1 "customerId" (by decide) rfl
